import Mathlib

/-!
Verification of `src/wk2_lab.py`: a shallow embedding of the pure core of the
lab-report generator (field scoring, filename sanitisation, upload validation
and storage, PDF-attachment merging, and the access-control policy of the
generated artifacts), together with proofs settling the specification's
claims about it.

Strings are modelled by Lean `String` (lists of characters); the filesystem
is modelled by explicit parameters: an existence predicate for stored paths
and a parse function for stored PDF files.  A paged document is modelled as
the list of its pages (each page opaque, represented by a `Nat`).
-/

namespace Wk2Lab

/-- Characters removed by Python's `str.strip()` at both ends of a string
(the ASCII whitespace characters Python treats as space). -/
def isPySpace (c : Char) : Bool :=
  c = ' ' || c = '\t' || c = '\n' || c = '\r' || c = '\x0b' || c = '\x0c' ||
    c = '\x1c' || c = '\x1d' || c = '\x1e' || c = '\x1f' || c = '\x85'

/-- Python `str.strip()` on a character list. -/
def pyStripChars (l : List Char) : List Char :=
  ((l.dropWhile isPySpace).reverse.dropWhile isPySpace).reverse

/-- Python `str.strip()`. -/
def pyStrip (s : String) : String := String.mk (pyStripChars s.toList)

/-- Python `str.lower()` (ASCII case folding, as used on extensions here). -/
def pyLower (s : String) : String := String.mk (s.toList.map Char.toLower)

/-- A character inside the class `[a-zA-Z0-9._-]` of `safe_filename`'s regex. -/
def isAllowedFileChar (c : Char) : Bool :=
  ('a' ≤ c && c ≤ 'z') || ('A' ≤ c && c ≤ 'Z') || ('0' ≤ c && c ≤ '9') ||
    c = '.' || c = '_' || c = '-'

/-- One left-to-right scan implementing
`re.sub(r"[^a-zA-Z0-9._-]+", "_", s)`: the flag records whether the scanner
is inside a match of the pattern (a maximal run of characters outside the
class), which has already been replaced by one underscore. -/
def reSubRuns : Bool → List Char → List Char
  | _, [] => []
  | inRun, c :: cs =>
    if isAllowedFileChar c then c :: reSubRuns false cs
    else if inRun then reSubRuns true cs
    else '_' :: reSubRuns true cs

/-- `safe_filename` from the source: strip, substitute the regex, fall back
to `"file"` when the result is empty. -/
def safe_filename (s : String) : String :=
  let t := pyStripChars s.toList
  let r := reSubRuns false t
  if r = [] then "file" else String.mk r

/-- Index of the last occurrence of `c` in `l` (Python `str.rfind`), if any. -/
def lastIndexOf (c : Char) (l : List Char) : Option Nat :=
  ((l.enum.filter (fun p => p.2 = c)).map (fun p => p.1)).getLast?

/-- `os.path.splitext` (posix): split off the extension at the last dot of
the last path component, except that leading dots of that component do not
start an extension. -/
def splitextChars (p : List Char) : List Char × List Char :=
  match lastIndexOf '.' p with
  | none => (p, [])
  | some dotIdx =>
    let fnameStart := match lastIndexOf '/' p with
      | none => 0
      | some i => i + 1
    if fnameStart ≤ dotIdx then
      if ((p.drop fnameStart).take (dotIdx - fnameStart)).any (fun d => d != '.') then
        (p.take dotIdx, p.drop dotIdx)
      else (p, [])
    else (p, [])

/-- `os.path.splitext` on strings. -/
def splitext (s : String) : String × String :=
  let r := splitextChars s.toList
  (String.mk r.1, String.mk r.2)

/-- `IMAGE_EXTS = {".png", ".jpg", ".jpeg", ".webp"}`. -/
def IMAGE_EXTS : List String := [".png", ".jpg", ".jpeg", ".webp"]

/-- `PDF_EXTS = {".pdf"}`. -/
def PDF_EXTS : List String := [".pdf"]

/-- `ALLOWED_EXTS = IMAGE_EXTS | PDF_EXTS`. -/
def ALLOWED_EXTS : List String := IMAGE_EXTS ++ PDF_EXTS

/-- `sorted(ALLOWED_EXTS)`, as Python sorts it for the error message. -/
def ALLOWED_EXTS_SORTED : List String := [".jpeg", ".jpg", ".pdf", ".png", ".webp"]

/-- `file_ext`: lowercase the whole path, then take the extension. -/
def file_ext (path : String) : String := (splitext (pyLower path)).2

/-- `is_image`. -/
def is_image (path : String) : Bool := IMAGE_EXTS.contains (file_ext path)

/-- `is_pdf`. -/
def is_pdf (path : String) : Bool := PDF_EXTS.contains (file_ext path)

/-- `is_filled_text(val)`: `bool(val and str(val).strip())`.  `none` models a
key absent from the payload dictionary (`payload.get` returns `None`). -/
def is_filled_text : Option String → Bool
  | none => false
  | some v => !(v == "") && !(pyStrip v == "")

/-- `is_filled_upload(path)`: `bool(path and os.path.exists(path))`, over an
explicit filesystem-existence predicate. -/
def is_filled_upload (fsExists : String → Bool) : Option String → Bool
  | none => false
  | some p => !(p == "") && fsExists p

/-- `YELLOW_TEXT_FIELDS`: the required text keys, in schema order. -/
def YELLOW_TEXT_FIELDS : List String := [
  "member1", "member2", "lab_date",
  "unc_meterstick", "unc_ruler", "unc_triple", "unc_digital", "unc_vernier", "unc_micrometer",
  "p2_tool", "p2_object", "p2_L", "p2_W", "p2_T", "p2_volume", "p2_vol_units",
  "p2_vol_best", "p2_vol_err", "p2_vol_err_units",
  "p3_obj_ruler", "p3_ruler_L", "p3_ruler_W", "p3_ruler_T",
  "p3_ruler_vol", "p3_ruler_vol_units",
  "p3_ruler_best", "p3_ruler_err", "p3_ruler_err_units",
  "p3_obj_vernier", "p3_vernier_L", "p3_vernier_W", "p3_vernier_T",
  "p3_vernier_vol", "p3_vernier_vol_units",
  "p3_vernier_best", "p3_vernier_err", "p3_vernier_err_units",
  "p3_obj_mic", "p3_mic_L", "p3_mic_W", "p3_mic_T",
  "p3_mic_vol", "p3_mic_vol_units",
  "p3_mic_best", "p3_mic_err", "p3_mic_err_units",
  "m_tb_obj", "m_tb_mass", "m_tb_err", "m_tb_units",
  "m_dig_obj", "m_dig_mass", "m_dig_err", "m_dig_units",
  "d1_density", "d1_units", "d1_best", "d1_err", "d1_err_units",
  "d2_density", "d2_units", "d2_best", "d2_err", "d2_err_units",
  "d3_density", "d3_units", "d3_best", "d3_err", "d3_err_units",
  "perr_1", "perr_2", "perr_3",
  "qa2", "qa3", "qa4", "qa5", "qa6"]

/-- `YELLOW_UPLOAD_FIELDS`: the required upload keys, in schema order. -/
def YELLOW_UPLOAD_FIELDS : List String := [
  "p2_unc_upload",
  "p3_ruler_unc_upload",
  "p3_vernier_unc_upload",
  "p3_mic_unc_upload",
  "d1_upload", "d2_upload", "d3_upload",
  "perr_upload",
  "app1_table_length", "app1_table_width", "app1_table_height",
  "app1_length_ruler", "app1_length_vernier", "app1_length_micrometer",
  "app1_width_ruler", "app1_width_vernier", "app1_width_micrometer",
  "app1_height_ruler", "app1_height_vernier", "app1_height_micrometer",
  "app1_mass_digital", "app1_mass_triplebeam",
  "signed_data"]

/-- `compute_score(payload)`: the two accumulation loops of the source, with
the payload as a partial map from keys to values and the filesystem as an
existence predicate.  Returns `(score, total, missing)`. -/
def compute_score (payload : String → Option String) (fsExists : String → Bool) :
    Nat × Nat × List String :=
  let acc1 := YELLOW_TEXT_FIELDS.foldl
    (fun (acc : Nat × List String) k =>
      if is_filled_text (payload k) then (acc.1 + 1, acc.2) else (acc.1, acc.2 ++ [k]))
    (0, [])
  let acc2 := YELLOW_UPLOAD_FIELDS.foldl
    (fun (acc : Nat × List String) k =>
      if is_filled_upload fsExists (payload k) then (acc.1 + 1, acc.2) else (acc.1, acc.2 ++ [k]))
    acc1
  (acc2.1, YELLOW_TEXT_FIELDS.length + YELLOW_UPLOAD_FIELDS.length, acc2.2)

/-- The claim's satisfaction test for a required text field: non-empty after
trimming whitespace. -/
def textSatisfied : Option String → Bool
  | none => false
  | some v => !(pyStrip v == "")

/-- The claim's satisfaction test for a required upload field: a non-empty
reference whose stored file currently exists. -/
def uploadSatisfied (fsExists : String → Bool) : Option String → Bool
  | none => false
  | some v => !(v == "") && fsExists v

/-- `UPLOADS_DIR`: the designated storage area (the absolute directory is
abstracted to its final component, which is all the claims inspect). -/
def UPLOADS_DIR : String := "uploads"

/-- The message of the `ValueError` raised by `save_upload` for a disallowed
extension: it carries the rejected extension and the sorted allowed set. -/
def unsupported_msg (ext : String) : String :=
  "Unsupported upload type: " ++ ext ++ ". Allowed: " ++
    String.intercalate ", " ALLOWED_EXTS_SORTED

/-- The extension `save_upload` inspects:
`os.path.splitext(fs.filename)[1].lower()`. -/
def upload_ext (filename : String) : String := pyLower (splitext filename).2

/-- `save_upload(fs, prefix)`: `none` models an absent file part; the `ts`
argument is the `datetime.now().strftime(...)` timestamp component.  Returns
the result (`.ok path`, `.ok ""` for no file, or the raised error) paired
with the list of storage paths written by the call. -/
def save_upload (filename? : Option String) (pre ts : String) :
    Except String String × List String :=
  match filename? with
  | none => (.ok "", [])
  | some fn =>
    if fn = "" then (.ok "", [])
    else if pyStrip fn = "" then (.ok "", [])
    else
      let ext := upload_ext fn
      if ALLOWED_EXTS.contains ext then
        let out_path := UPLOADS_DIR ++ "/" ++ (pre ++ "_" ++ ts ++ "_" ++ safe_filename fn)
        (.ok out_path, [out_path])
      else (.error (unsupported_msg ext), [])

/-- The storage state `append_pdf_uploads` reads: which paths exist, and the
pages obtained by parsing the stored file at a path (`.error` models a file
`PyPDF2.PdfReader` rejects, with the parser's message). -/
structure PdfStore where
  pathExists : String → Bool
  parsePdf : String → Except String (List Nat)

/-- The filter of `append_pdf_uploads`:
`[p for p in upload_paths if p and is_pdf(p) and os.path.exists(p)]`. -/
def pdf_filter (st : PdfStore) (upload_paths : List String) : List String :=
  upload_paths.filter (fun p => !(p == "") && is_pdf p && st.pathExists p)

/-- The two appending loops of `append_pdf_uploads`: all pages already in the
writer (`acc`), then for each path its parsed pages; a parse failure raises
the parser's error. -/
def append_pages (st : PdfStore) : List Nat → List String → Except String (List Nat)
  | acc, [] => .ok acc
  | acc, p :: ps =>
    match st.parsePdf p with
    | .error e => .error e
    | .ok pages => append_pages st (acc ++ pages) ps

/-- `append_pdf_uploads(main_pdf_bytes, upload_paths)`: a paged document is
its list of pages. -/
def append_pdf_uploads (st : PdfStore) (main_pdf_bytes : List Nat)
    (upload_paths : List String) : Except String (List Nat) :=
  let pdf_paths := pdf_filter st upload_paths
  if pdf_paths = [] then .ok main_pdf_bytes
  else append_pages st main_pdf_bytes pdf_paths

/-- The arguments of `reportlab`'s `StandardEncryption` as the source builds
them (`canPrint=1`, `canModify=0`, `canCopy=0`, `canAnnotate=0`). -/
structure StandardEncryption where
  userPassword : String
  ownerPassword : String
  canPrint : Bool
  canModify : Bool
  canCopy : Bool
  canAnnotate : Bool
deriving DecidableEq

/-- The public policy (the `else` branch of the encryption choice): no read
password, fixed owner secret, printing only. -/
def public_policy : StandardEncryption :=
  { userPassword := "", ownerPassword := "OWNER_LOCK",
    canPrint := true, canModify := false, canCopy := false, canAnnotate := false }

/-- The encryption `build_pdf_wk2_lab` passes to the document template:
password-gated only when the appendix is included and the password is
non-blank. -/
def build_pdf_encrypt (include_appendix_ii : Bool) (instructor_password : String) :
    StandardEncryption :=
  if include_appendix_ii && !(pyStrip instructor_password == "") then
    { userPassword := pyStrip instructor_password,
      ownerPassword := pyStrip instructor_password ++ "_OWNER",
      canPrint := true, canModify := false, canCopy := false, canAnnotate := false }
  else public_policy

/-- The access-control face of one composed document: whether the optional
Appendix III block was appended to the story, and the encryption applied. -/
structure Artifact where
  hasAppendixIII : Bool
  encrypt : StandardEncryption
deriving DecidableEq

/-- `build_pdf_wk2_lab(payload, include_appendix_ii, instructor_password)`,
abstracted to the access-control content the claims inspect: the Appendix III
block is in the story iff `include_appendix_ii`, and the encryption is chosen
as in the source; the fixed layout blocks of the story are not modelled. -/
def build_pdf_wk2_lab (include_appendix_ii : Bool) (instructor_password : String) :
    Artifact :=
  { hasAppendixIII := include_appendix_ii,
    encrypt := build_pdf_encrypt include_appendix_ii instructor_password }

/-- Python truthiness of `request.form.get(k)`: present and non-empty. -/
def truthyForm : Option String → Bool
  | none => false
  | some s => !(s == "")

/-- The instructor password the handler settles on: the stripped form value,
falling back to the stripped `INSTRUCTOR_PDF_PASSWORD` environment value when
the form value is blank. -/
def instructor_pw_of (formPw : Option String) (envPw : String) : String :=
  let pw := pyStrip (formPw.getD "")
  if pw = "" then pyStrip envPw else pw

/-- The artifacts `generate_wk2_lab` composes, in order: always the student
document (no appendix, default empty password), and additionally the
instructor document exactly when the privileged flag is truthy and the
settled password is non-empty. -/
def generate_wk2_lab_artifacts (formFlag formPw : Option String) (envPw : String) :
    List Artifact :=
  let instructor_pw := instructor_pw_of formPw envPw
  let include_appendix_ii := truthyForm formFlag && !(instructor_pw == "")
  [build_pdf_wk2_lab false ""] ++
    (if include_appendix_ii then [build_pdf_wk2_lab true instructor_pw] else [])

/-- The `(form field, name prefix)` pairs of the `save_upload` calls of
`generate_wk2_lab`, in source order. -/
def UPLOAD_SAVE_ORDER : List (String × String) := [
  ("p2_unc_upload", "p2_unc"),
  ("p3_ruler_unc_upload", "p3_ruler_unc"),
  ("p3_vernier_unc_upload", "p3_vernier_unc"),
  ("p3_mic_unc_upload", "p3_mic_unc"),
  ("d1_upload", "d1"), ("d2_upload", "d2"), ("d3_upload", "d3"),
  ("sample_calc", "sample_calc"),
  ("perr_upload", "perr"),
  ("signed_data", "signed"),
  ("app1_table_length", "app1_table_length"),
  ("app1_table_width", "app1_table_width"),
  ("app1_table_height", "app1_table_height"),
  ("app1_length_ruler", "app1_length_ruler"),
  ("app1_length_vernier", "app1_length_vernier"),
  ("app1_length_micrometer", "app1_length_micrometer"),
  ("app1_width_ruler", "app1_width_ruler"),
  ("app1_width_vernier", "app1_width_vernier"),
  ("app1_width_micrometer", "app1_width_micrometer"),
  ("app1_height_ruler", "app1_height_ruler"),
  ("app1_height_vernier", "app1_height_vernier"),
  ("app1_height_micrometer", "app1_height_micrometer"),
  ("app1_mass_digital", "app1_mass_digital"),
  ("app1_mass_triplebeam", "app1_mass_triplebeam")]

/-- The sequence of `save_upload` calls of the handler: the first raised
error aborts the sequence; files already stored stay stored. -/
def process_uploads (files : String → Option String) (ts : String) :
    List (String × String) → Except String Unit × List String
  | [] => (.ok (), [])
  | fp :: rest =>
    match save_upload (files fp.1) fp.2 ts with
    | (.error e, w) => (.error e, w)
    | (.ok _, w) =>
      let r := process_uploads files ts rest
      (r.1, w ++ r.2)

/-- The storage paths the handler's `save_upload` sequence writes. -/
def planned_writes (files : String → Option String) (ts : String) :
    List (String × String) → List String
  | [] => []
  | fp :: rest => (save_upload (files fp.1) fp.2 ts).2 ++ planned_writes files ts rest

/-- The upload-then-validate part of `generate_wk2_lab`: all `save_upload`
calls run first, then the mandatory-field checks on the (already stripped)
`member1` and `lab_date` values.  The result is paired with the storage
paths written by the request; `.ok ()` stands for proceeding to scoring and
composition. -/
def generate_wk2_lab_validation (member1Form labDateForm : String)
    (files : String → Option String) (ts : String) :
    Except String Unit × List String :=
  let member1 := pyStrip member1Form
  let lab_date := pyStrip labDateForm
  match process_uploads files ts UPLOAD_SAVE_ORDER with
  | (.error e, w) => (.error e, w)
  | (.ok _, w) =>
    if member1 = "" then (.error "Lab member name 1 is required.", w)
    else if lab_date = "" then (.error "Date is required.", w)
    else (.ok (), w)

/-- The claim's reading of the sanitizer (one replacement underscore per
disallowed character, fallback when empty), for comparison with the source's
`safe_filename`. -/
def safe_filename_claim (s : String) : String :=
  let r := s.toList.map (fun c => if isAllowedFileChar c then c else '_')
  if r = [] then "file" else String.mk r

/-- Replacing each maximal run of disallowed characters by a single
underscore, stated directly: the amended description of the regex
substitution. -/
def replaceRuns : List Char → List Char
  | [] => []
  | c :: cs =>
    if isAllowedFileChar c then c :: replaceRuns cs
    else '_' :: replaceRuns (cs.dropWhile (fun d => !isAllowedFileChar d))
termination_by l => l.length
decreasing_by
  all_goals simp_wf
  all_goals
    first
    | omega
    | exact Nat.lt_succ_of_le (List.dropWhile_sublist _).length_le

/-- A concrete store for exercising `append_pdf_uploads` on two attachments. -/
def c3Store : PdfStore :=
  { pathExists := fun p => p == "a.pdf" || p == "b.pdf",
    parsePdf := fun p =>
      if p = "a.pdf" then .ok [10, 11]
      else if p = "b.pdf" then .ok [20] else .error "bad" }

/-- A concrete store holding one existing but unparseable attachment, whose
parse error (as `PyPDF2` raises it) does not mention the path. -/
def c6Store : PdfStore :=
  { pathExists := fun p => p == "up/a.pdf",
    parsePdf := fun _ => .error "EOF marker not found" }

/-- A concrete request file mapping with a single supplied upload. -/
def c10Files : String → Option String :=
  fun fld => if fld = "d1_upload" then some "x.png" else none

/-! ## Supporting lemmas -/

/-- One scoring loop (counter plus appended missing list) computes the filter
characterisation. -/
theorem foldl_score_step (p : String → Bool) (l : List String) (n : Nat) (m : List String) :
    l.foldl (fun acc k => if p k then (acc.1 + 1, acc.2) else (acc.1, acc.2 ++ [k])) (n, m)
      = (n + (l.filter p).length, m ++ l.filter (fun k => !p k)) := by
  induction l generalizing n m with
  | nil => simp
  | cons a l ih =>
    by_cases hp : p a = true
    · simp only [List.foldl_cons, hp, if_true, ih, List.filter_cons, Bool.not_true,
        Bool.false_eq_true, if_false, List.length_cons]
      exact Prod.ext (by omega) rfl
    · simp only [List.foldl_cons, hp, Bool.false_eq_true, if_false, ih, List.filter_cons,
        Bool.not_eq_true] at *
      simp [hp, List.append_assoc]

/-- The source's text check agrees with the claim's (non-empty after trim). -/
theorem is_filled_text_eq (v : Option String) : is_filled_text v = textSatisfied v := by
  cases v with
  | none => rfl
  | some s =>
    by_cases h : s = ""
    · subst h; rfl
    · simp [is_filled_text, textSatisfied, h]

/-- The source's upload check agrees with the claim's. -/
theorem is_filled_upload_eq (fsExists : String → Bool) (v : Option String) :
    is_filled_upload fsExists v = uploadSatisfied fsExists v := by
  cases v <;> rfl

/-! ## Claims -/

/-- C1: for every payload, `compute_score` returns `(score, total, missing)`
where a required text field is satisfied iff non-empty after trimming, a
required upload field is satisfied iff its reference is non-empty and the
stored file exists, `total` is the number of required text keys plus required
upload keys, `score` counts the satisfied fields, and `missing` lists the
unsatisfied keys, text keys first in schema order, then upload keys in schema
order. -/
theorem C1_compute_score_correct (payload : String → Option String) (fsExists : String → Bool) :
    compute_score payload fsExists =
      ((YELLOW_TEXT_FIELDS.filter (fun k => textSatisfied (payload k))).length
          + (YELLOW_UPLOAD_FIELDS.filter (fun k => uploadSatisfied fsExists (payload k))).length,
        YELLOW_TEXT_FIELDS.length + YELLOW_UPLOAD_FIELDS.length,
        YELLOW_TEXT_FIELDS.filter (fun k => !textSatisfied (payload k))
          ++ YELLOW_UPLOAD_FIELDS.filter (fun k => !uploadSatisfied fsExists (payload k))) := by
  simp only [compute_score, foldl_score_step]
  simp [is_filled_text_eq, is_filled_upload_eq]

/-- C2: when the privileged flag is set but the supplied secret — from the
form or from the configured fallback, the two sources §6 names — is empty
after trimming, the handler produces exactly the public student artifact:
no Appendix III block, public policy with no read password. -/
theorem C2_no_privileged_without_secret (formFlag formPw : Option String) (envPw : String)
    (hFlag : truthyForm formFlag = true)
    (hForm : pyStrip (formPw.getD "") = "")
    (hEnv : pyStrip envPw = "") :
    generate_wk2_lab_artifacts formFlag formPw envPw
      = [{ hasAppendixIII := false, encrypt := public_policy }] := by
  simp [generate_wk2_lab_artifacts, instructor_pw_of, hForm, hEnv,
    build_pdf_wk2_lab, build_pdf_encrypt]

/-- C2 witness: the privileged flag checked, a blank form secret, no
configured fallback. -/
theorem C2_no_privileged_without_secret_witness :
    generate_wk2_lab_artifacts (some "on") (some "   ") ""
      = [{ hasAppendixIII := false, encrypt := public_policy }] :=
  C2_no_privileged_without_secret (some "on") (some "   ") ""
    (by decide) (by decide) (by decide)

/-- C3: with exactly two existing paged-document attachments surviving the
filter, whose stored files parse to `ps1` and `ps2`, merging yields the
original pages followed by the attachments' pages in attachment-list order,
with `N + P1 + P2` pages. -/
theorem C3_append_two_attachments (st : PdfStore) (doc ps1 ps2 : List Nat)
    (refs : List String) (r1 r2 : String)
    (hFilter : pdf_filter st refs = [r1, r2])
    (h1 : st.parsePdf r1 = .ok ps1) (h2 : st.parsePdf r2 = .ok ps2) :
    append_pdf_uploads st doc refs = .ok (doc ++ ps1 ++ ps2)
      ∧ (doc ++ ps1 ++ ps2).length = doc.length + ps1.length + ps2.length := by
  constructor
  · unfold append_pdf_uploads
    rw [hFilter]
    simp [append_pages, h1, h2]
  · simp [List.length_append, Nat.add_assoc]

/-- C3 witness: a two-page report with a two-page and a one-page PDF
attachment and one non-PDF reference in between. -/
theorem C3_append_two_attachments_witness :
    append_pdf_uploads c3Store [0, 1] ["a.pdf", "notes.png", "b.pdf"]
        = .ok ([0, 1] ++ [10, 11] ++ [20])
      ∧ (([0, 1] ++ [10, 11] ++ [20] : List Nat)).length
          = ([0, 1] : List Nat).length + ([10, 11] : List Nat).length
              + ([20] : List Nat).length :=
  C3_append_two_attachments c3Store [0, 1] [10, 11] [20]
    ["a.pdf", "notes.png", "b.pdf"] "a.pdf" "b.pdf" rfl rfl rfl

/-- C7: merging with an empty attachment list returns the document bytes
unchanged, and so does merging with any list whose filtered form is empty
(no existing paged-document reference). -/
theorem C7_append_noop (st : PdfStore) (doc : List Nat) (refs : List String) :
    append_pdf_uploads st doc [] = .ok doc
      ∧ (pdf_filter st refs = [] → append_pdf_uploads st doc refs = .ok doc) := by
  constructor
  · rfl
  · intro h
    unfold append_pdf_uploads
    rw [h]
    rfl

/-- The stored path returned by a successful `save_upload` is non-empty. -/
theorem upload_path_ne_empty (x : String) : UPLOADS_DIR ++ "/" ++ x ≠ "" := by
  intro h
  have hl := congrArg String.length h
  rw [String.length_append, String.length_append] at hl
  have h7 : UPLOADS_DIR.length = 7 := rfl
  have hs : ("/" : String).length = 1 := rfl
  have he : ("" : String).length = 0 := rfl
  rw [h7, hs, he] at hl
  omega

/-- C5: an uploaded file (non-blank filename) whose extension, lowercased, is
not in the allowed set makes `save_upload` fail with the `ValueError` message
carrying the rejected extension and the sorted allowed set, writing nothing
to storage; a `.png` or `.pdf` extension makes it succeed, write the stored
file, and return that non-empty path as the reference. -/
theorem C5_save_upload_validation (fn pre ts : String)
    (hne : fn ≠ "") (hstrip : pyStrip fn ≠ "") :
    (ALLOWED_EXTS.contains (upload_ext fn) = false →
        save_upload (some fn) pre ts = (.error (unsupported_msg (upload_ext fn)), []))
      ∧ ((upload_ext fn = ".png" ∨ upload_ext fn = ".pdf") →
          save_upload (some fn) pre ts
              = (.ok (UPLOADS_DIR ++ "/" ++ (pre ++ "_" ++ ts ++ "_" ++ safe_filename fn)),
                  [UPLOADS_DIR ++ "/" ++ (pre ++ "_" ++ ts ++ "_" ++ safe_filename fn)])
            ∧ UPLOADS_DIR ++ "/" ++ (pre ++ "_" ++ ts ++ "_" ++ safe_filename fn) ≠ "") := by
  constructor
  · intro hbad
    have hbad' : upload_ext fn ∉ ALLOWED_EXTS := by simpa using hbad
    simp [save_upload, hne, hstrip, hbad']
  · intro hgood
    have hmem : upload_ext fn ∈ ALLOWED_EXTS := by
      rcases hgood with h | h <;> simp [ALLOWED_EXTS, IMAGE_EXTS, PDF_EXTS, h]
    exact ⟨by simp [save_upload, hne, hstrip, hmem], upload_path_ne_empty _⟩

/-- C5 witness: a `.docx` upload is rejected with the descriptive message and
no write; an upper-case `.PNG` upload is stored and referenced. -/
theorem C5_save_upload_validation_witness :
    save_upload (some "report.docx") "signed" "20260102_030405"
        = (.error (unsupported_msg (upload_ext "report.docx")), [])
      ∧ save_upload (some "Scan.PNG") "d1" "20260102_030405"
          = (.ok (UPLOADS_DIR ++ "/" ++
                ("d1" ++ "_" ++ "20260102_030405" ++ "_" ++ safe_filename "Scan.PNG")),
              [UPLOADS_DIR ++ "/" ++
                ("d1" ++ "_" ++ "20260102_030405" ++ "_" ++ safe_filename "Scan.PNG")]) :=
  ⟨(C5_save_upload_validation "report.docx" "signed" "20260102_030405"
      (by decide) (by decide)).1 (by decide),
   ((C5_save_upload_validation "Scan.PNG" "d1" "20260102_030405"
      (by decide) (by decide)).2 (Or.inl (by decide))).1⟩

/-- A parse failure among the paths makes the appending loop fail. -/
theorem append_pages_error (st : PdfStore) (l : List String) (acc : List Nat)
    (h : ∃ p, p ∈ l ∧ ∃ e, st.parsePdf p = .error e) :
    ∃ e, append_pages st acc l = .error e := by
  induction l generalizing acc with
  | nil =>
    rcases h with ⟨p, hp, _⟩
    cases hp
  | cons q l ih =>
    cases hq : st.parsePdf q with
    | error e => exact ⟨e, by simp [append_pages, hq]⟩
    | ok pages =>
      rcases h with ⟨p, hp, e, he⟩
      rcases List.mem_cons.mp hp with rfl | hmem
      · rw [hq] at he
        cases he
      · obtain ⟨e', he'⟩ := ih (acc ++ pages) ⟨p, hmem, e, he⟩
        exact ⟨e', by simp [append_pages, hq, he']⟩

/-- A successful appending loop parsed every path and concatenated all their
pages after the accumulator. -/
theorem append_pages_ok (st : PdfStore) (l : List String) (acc out : List Nat)
    (h : append_pages st acc l = .ok out) :
    ∃ pss : List (List Nat),
      List.Forall₂ (fun p ps => st.parsePdf p = .ok ps) l pss ∧ out = acc ++ pss.flatten := by
  induction l generalizing acc with
  | nil =>
    refine ⟨[], List.Forall₂.nil, ?_⟩
    simp [append_pages] at h
    simp [h]
  | cons q l ih =>
    cases hq : st.parsePdf q with
    | error e =>
      simp [append_pages, hq] at h
    | ok pages =>
      simp only [append_pages, hq] at h
      obtain ⟨pss, hall, hout⟩ := ih (acc ++ pages) h
      exact ⟨pages :: pss, List.Forall₂.cons hq hall, by simp [hout, List.append_assoc]⟩

/-- C6 counterexample: with one existing but corrupt attachment the merge
fails with the parser's message verbatim ("EOF marker not found", as `PyPDF2`
raises it), which does not contain the offending reference, and no
`AttachmentMergeFailure` wrapper naming it is added anywhere in the source. -/
theorem C6_error_lacks_reference :
    append_pdf_uploads c6Store [0] ["up/a.pdf"] = .error "EOF marker not found"
      ∧ ¬ "up/a.pdf".toList <:+: "EOF marker not found".toList := by
  constructor
  · rfl
  · decide

/-- C6 (amended): if any attachment surviving the filter is unparseable the
merge fails with the parse error — the request aborts rather than silently
dropping the attachment — and any successful merge parsed every filtered
attachment and kept all of its pages (never a truncated document). -/
theorem C6_merge_failure_aborts (st : PdfStore) (doc : List Nat) (refs : List String) :
    ((∃ p, p ∈ pdf_filter st refs ∧ ∃ e, st.parsePdf p = .error e) →
        ∃ e, append_pdf_uploads st doc refs = .error e)
      ∧ (∀ out, append_pdf_uploads st doc refs = .ok out →
          ∃ pss : List (List Nat),
            List.Forall₂ (fun p ps => st.parsePdf p = .ok ps) (pdf_filter st refs) pss
              ∧ out = doc ++ pss.flatten) := by
  constructor
  · intro h
    have hne : pdf_filter st refs ≠ [] := by
      rcases h with ⟨p, hp, _⟩
      intro h0
      rw [h0] at hp
      cases hp
    unfold append_pdf_uploads
    simp only [if_neg hne]
    exact append_pages_error st _ doc h
  · intro out hout
    unfold append_pdf_uploads at hout
    by_cases h0 : pdf_filter st refs = []
    · simp only [h0, if_pos rfl] at hout
      cases hout
      exact ⟨[], by rw [h0]; exact List.Forall₂.nil, by simp⟩
    · simp only [if_neg h0] at hout
      exact append_pages_ok st _ doc out hout

/-- The regex-substitution scan replaces each maximal run of disallowed
characters by one underscore: the directly stated form agrees with it. -/
theorem reSubRuns_eq_replaceRuns (l : List Char) :
    reSubRuns false l = replaceRuns l
      ∧ reSubRuns true l = replaceRuns (l.dropWhile (fun d => !isAllowedFileChar d)) := by
  induction l with
  | nil => refine ⟨?_, ?_⟩ <;> simp [reSubRuns, replaceRuns]
  | cons c cs ih =>
    by_cases h : isAllowedFileChar c = true
    · constructor
      · simp [reSubRuns, replaceRuns, h, ih.1]
      · simp [reSubRuns, List.dropWhile_cons, replaceRuns, h, ih.1]
    · constructor
      · simp [reSubRuns, replaceRuns, h, ih.2]
      · simp [reSubRuns, List.dropWhile_cons, h, ih.2]

/-- C8 counterexample: on `"a!!b"` the sanitizer collapses the run `!!` of
two disallowed characters to a single underscore, not one underscore per
character as the claim states. -/
theorem C8_per_character_counterexample :
    safe_filename "a!!b" = "a_b" ∧ safe_filename_claim "a!!b" = "a__b"
      ∧ safe_filename "a!!b" ≠ safe_filename_claim "a!!b" := by
  refine ⟨by decide, by decide, by decide⟩

/-- C8 (amended): the sanitizer trims whitespace, then replaces each maximal
run of characters outside `[A-Za-z0-9._-]` with a single underscore, and
returns the literal fallback name `"file"` when the result is empty. -/
theorem C8_sanitizer_replaces_runs (s : String) :
    safe_filename s =
      (if replaceRuns (pyStripChars s.toList) = [] then "file"
       else String.mk (replaceRuns (pyStripChars s.toList))) := by
  simp only [safe_filename]
  rw [(reSubRuns_eq_replaceRuns (pyStripChars s.toList)).1]

/-- Every character the substitution scan emits is in the allowed class. -/
theorem mem_reSubRuns_allowed (b : Bool) (l : List Char) (c : Char)
    (h : c ∈ reSubRuns b l) : isAllowedFileChar c = true := by
  induction l generalizing b with
  | nil => cases h
  | cons d ds ih =>
    by_cases hd : isAllowedFileChar d = true
    · rw [reSubRuns, if_pos hd] at h
      rcases List.mem_cons.mp h with rfl | hmem
      · exact hd
      · exact ih false hmem
    · rw [reSubRuns, if_neg hd] at h
      cases b with
      | true => exact ih true h
      | false =>
        rcases List.mem_cons.mp (by simpa using h) with rfl | hmem
        · decide
        · exact ih true hmem

/-- The substitution scan is the identity on all-allowed character lists. -/
theorem reSubRuns_id_of_allowed (l : List Char)
    (h : ∀ c ∈ l, isAllowedFileChar c = true) : reSubRuns false l = l := by
  induction l with
  | nil => rfl
  | cons c cs ih =>
    rw [reSubRuns, if_pos (h c (List.mem_cons_self c cs))]
    rw [ih (fun d hd => h d (List.mem_cons_of_mem c hd))]

/-- An allowed filename character is not stripped whitespace. -/
theorem allowed_not_pyspace (c : Char) (h : isAllowedFileChar c = true) :
    isPySpace c = false := by
  cases hs : isPySpace c with
  | false => rfl
  | true =>
    exfalso
    simp only [isPySpace, Bool.or_eq_true, decide_eq_true_eq] at hs
    rcases hs with ((((((((((rfl | rfl) | rfl) | rfl) | rfl) | rfl) | rfl) | rfl) | rfl) | rfl) | rfl) <;>
      exact absurd h (by decide)

/-- Dropping while a predicate that fails on every element is the identity. -/
theorem dropWhile_eq_self_of (p : Char → Bool) (l : List Char)
    (h : ∀ c ∈ l, p c = false) : l.dropWhile p = l := by
  cases l with
  | nil => rfl
  | cons c cs => rw [List.dropWhile_cons, h c (List.mem_cons_self c cs)]; simp

/-- Stripping is the identity on all-allowed character lists. -/
theorem pyStripChars_id_of_allowed (l : List Char)
    (h : ∀ c ∈ l, isAllowedFileChar c = true) : pyStripChars l = l := by
  unfold pyStripChars
  rw [dropWhile_eq_self_of _ _ (fun c hc => allowed_not_pyspace c (h c hc)),
    dropWhile_eq_self_of _ _
      (fun c hc => allowed_not_pyspace c (h c (List.mem_reverse.mp hc))),
    List.reverse_reverse]

/-- C9: for every input, `safe_filename` returns a non-empty string made only
of characters in `[A-Za-z0-9._-]`, and it is idempotent. -/
theorem C9_safe_filename_idempotent (s : String) :
    safe_filename s ≠ ""
      ∧ (∀ c ∈ (safe_filename s).toList, isAllowedFileChar c = true)
      ∧ safe_filename (safe_filename s) = safe_filename s := by
  by_cases h0 : reSubRuns false (pyStripChars s.toList) = []
  · have hs : safe_filename s = "file" := by
      simp only [safe_filename]
      rw [h0]
      rfl
    rw [hs]
    exact ⟨by decide, by decide, by decide⟩
  · have hs : safe_filename s = String.mk (reSubRuns false (pyStripChars s.toList)) := by
      simp only [safe_filename]
      rw [if_neg h0]
    have hall : ∀ c ∈ reSubRuns false (pyStripChars s.toList), isAllowedFileChar c = true :=
      fun c hc => mem_reSubRuns_allowed _ _ c hc
    refine ⟨?_, ?_, ?_⟩
    · rw [hs]
      intro hemp
      exact h0 (congrArg String.data hemp)
    · rw [hs]
      exact hall
    · rw [hs]
      have h2 : pyStripChars (String.mk (reSubRuns false (pyStripChars s.toList))).toList
          = reSubRuns false (pyStripChars s.toList) :=
        pyStripChars_id_of_allowed _ hall
      simp only [safe_filename, h2, reSubRuns_id_of_allowed _ hall, if_neg h0]

/-- A save whose input is absent, blank, or of an allowed type succeeds. -/
theorem save_upload_ok (fn? : Option String) (pre ts : String)
    (h : ∀ fn, fn? = some fn → fn ≠ "" → pyStrip fn ≠ "" →
      upload_ext fn ∈ ALLOWED_EXTS) :
    ∃ v, (save_upload fn? pre ts).1 = .ok v := by
  cases fn? with
  | none => exact ⟨"", rfl⟩
  | some fn =>
    by_cases h1 : fn = ""
    · exact ⟨"", by simp [save_upload, h1]⟩
    · by_cases h2 : pyStrip fn = ""
      · exact ⟨"", by simp [save_upload, h1, h2]⟩
      · have hm := h fn rfl h1 h2
        exact ⟨UPLOADS_DIR ++ "/" ++ (pre ++ "_" ++ ts ++ "_" ++ safe_filename fn),
          by simp [save_upload, h1, h2, hm]⟩

/-- When every save succeeds, the handler's upload pass succeeds and writes
exactly the planned paths. -/
theorem process_uploads_ok (files : String → Option String) (ts : String)
    (order : List (String × String))
    (h : ∀ fp ∈ order, ∀ fn, files fp.1 = some fn → fn ≠ "" → pyStrip fn ≠ "" →
      upload_ext fn ∈ ALLOWED_EXTS) :
    process_uploads files ts order = (.ok (), planned_writes files ts order) := by
  induction order with
  | nil => rfl
  | cons fp rest ih =>
    obtain ⟨v, hv⟩ := save_upload_ok (files fp.1) fp.2 ts
      (fun fn hfn => h fp (List.mem_cons_self fp rest) fn hfn)
    have ihr := ih (fun q hq => h q (List.mem_cons_of_mem fp hq))
    rcases hp : save_upload (files fp.1) fp.2 ts with ⟨res, w⟩
    rw [hp] at hv
    simp only at hv
    subst hv
    rw [process_uploads, planned_writes, hp, ihr]

/-- The stored path of each successfully saved, actually supplied upload is
among the planned writes. -/
theorem mem_planned_writes (files : String → Option String) (ts : String)
    (order : List (String × String)) (fp : String × String) (hfp : fp ∈ order)
    (fn : String) (hfn : files fp.1 = some fn) (hne : fn ≠ "") (hstrip : pyStrip fn ≠ "")
    (hext : upload_ext fn ∈ ALLOWED_EXTS) :
    UPLOADS_DIR ++ "/" ++ (fp.2 ++ "_" ++ ts ++ "_" ++ safe_filename fn)
      ∈ planned_writes files ts order := by
  induction order with
  | nil => cases hfp
  | cons q rest ih =>
    rw [planned_writes]
    rcases List.mem_cons.mp hfp with rfl | hmem
    · have heq : (save_upload (files fp.1) fp.2 ts).2
          = [UPLOADS_DIR ++ "/" ++ (fp.2 ++ "_" ++ ts ++ "_" ++ safe_filename fn)] := by
        rw [hfn]
        simp [save_upload, hne, hstrip, hext]
      rw [heq]
      exact List.mem_append_left _ (List.mem_singleton.mpr rfl)
    · exact List.mem_append_right _ (ih hmem)

/-- C10: upload persistence happens before mandatory-field validation — when
all supplied uploads are of allowed types but the stripped `member1` or
`lab_date` value is empty, the handler rejects the request with a validation
error while the final storage state still contains the stored path of every
supplied upload (no rollback of writes on rejection). -/
theorem C10_uploads_stored_despite_rejection
    (member1Form labDateForm : String) (files : String → Option String) (ts : String)
    (hOk : ∀ fp ∈ UPLOAD_SAVE_ORDER, ∀ fn, files fp.1 = some fn → fn ≠ "" →
      pyStrip fn ≠ "" → upload_ext fn ∈ ALLOWED_EXTS)
    (hEmpty : pyStrip member1Form = "" ∨ pyStrip labDateForm = "") :
    (∃ e, generate_wk2_lab_validation member1Form labDateForm files ts
        = (.error e, planned_writes files ts UPLOAD_SAVE_ORDER))
      ∧ ∀ fp ∈ UPLOAD_SAVE_ORDER, ∀ fn, files fp.1 = some fn → fn ≠ "" →
          pyStrip fn ≠ "" →
          UPLOADS_DIR ++ "/" ++ (fp.2 ++ "_" ++ ts ++ "_" ++ safe_filename fn)
            ∈ planned_writes files ts UPLOAD_SAVE_ORDER := by
  have hproc := process_uploads_ok files ts UPLOAD_SAVE_ORDER hOk
  constructor
  · unfold generate_wk2_lab_validation
    rw [hproc]
    by_cases h1 : pyStrip member1Form = ""
    · exact ⟨"Lab member name 1 is required.", by simp [h1]⟩
    · have h2 : pyStrip labDateForm = "" := hEmpty.resolve_left h1
      exact ⟨"Date is required.", by simp [h1, h2]⟩
  · intro fp hfp fn hfn hne hstrip
    exact mem_planned_writes files ts UPLOAD_SAVE_ORDER fp hfp fn hfn hne hstrip
      (hOk fp hfp fn hfn hne hstrip)

/-- C10 witness: one supplied `.png` upload, a blank member name: the request
is rejected after the upload's stored path is among the writes. -/
theorem C10_uploads_stored_despite_rejection_witness :
    (∃ e, generate_wk2_lab_validation " " "2026-01-15" c10Files "20260101_000000"
        = (.error e, planned_writes c10Files "20260101_000000" UPLOAD_SAVE_ORDER))
      ∧ UPLOADS_DIR ++ "/" ++ ("d1" ++ "_" ++ "20260101_000000" ++ "_" ++ safe_filename "x.png")
          ∈ planned_writes c10Files "20260101_000000" UPLOAD_SAVE_ORDER := by
  have hok : ∀ fp ∈ UPLOAD_SAVE_ORDER, ∀ fn, c10Files fp.1 = some fn → fn ≠ "" →
      pyStrip fn ≠ "" → upload_ext fn ∈ ALLOWED_EXTS := by
    intro fp _ fn hfn _ _
    simp only [c10Files] at hfn
    by_cases hq : fp.1 = "d1_upload"
    · rw [if_pos hq] at hfn
      injection hfn with h
      subst h
      decide
    · rw [if_neg hq] at hfn
      cases hfn
  have h := C10_uploads_stored_despite_rejection " " "2026-01-15" c10Files
    "20260101_000000" hok (Or.inl (by decide))
  exact ⟨h.1, h.2 ("d1_upload", "d1") (by decide) "x.png" rfl (by decide) (by decide)⟩

end Wk2Lab
